import Mathlib

/-!
Shallow embedding of the hayagriva bibliography ingestion library
(src/src/lib.rs) together with the external collaborator types of its
`types` module, which is not part of the sources and is therefore
modelled from the specification (spec.md sections 3 and 6).
Rust `Option`/`Result` become `Option`/`Except`; a Rust panic is
modelled as `Option.none` of an outer `Option` layer; `HashMap` /
`LinkedHashMap` become association lists with replace-on-insert and
first-match lookup.
-/

namespace Hayagriva

/-- Modelled from the spec: the entry type enumeration of the missing
`types` module (spec section 3: "a type (book, article, webpage, ...)";
unrecognized strings degrade to "Misc"). Only members the spec names are
included. -/
inductive EntryType where
  | Article
  | Periodical
  | Book
  | Web
  | Misc
deriving DecidableEq, Repr

/-- Modelled from the spec: `EntryType::check` of the missing `types`
module; spec section 4.3 step 1 reads "if entry.type does not satisfy
spec.here"; the worked example (spec section 8) matches types by name,
so satisfaction is equality. -/
def EntryType.check (t here : EntryType) : Bool :=
  decide (t = here)

/-- Modelled from the spec: constraint spec node (spec section 3): a
"this type must satisfy" predicate plus an ordered sequence of child
constraint specs. -/
inductive EntryTypeSpec where
  | mk (here : EntryType) (parents : List EntryTypeSpec)

def EntryTypeSpec.here : EntryTypeSpec → EntryType
  | .mk h _ => h

def EntryTypeSpec.parents : EntryTypeSpec → List EntryTypeSpec
  | .mk _ p => p

/-- Modelled from the spec: formattable text (spec section 3): a value
plus optional title-case and sentence-case alternates and a verbatim
flag. Field order follows `FormattableString::new(value, title_case,
sentence_case, verbatim)`. -/
structure FormattableString where
  value : String
  title_case : Option String
  sentence_case : Option String
  verbatim : Bool
deriving DecidableEq, Repr

def FormattableString.new (value : String) (title_case : Option String)
    (sentence_case : Option String) (verbatim : Bool) : FormattableString :=
  ⟨value, title_case, sentence_case, verbatim⟩

/-- Modelled from the spec: the shorthand constructor (spec section 4.4:
a plain string is "shorthand: formattable text with no alternates";
verbatim defaults to false). -/
def FormattableString.new_shorthand (value : String) : FormattableString :=
  ⟨value, none, none, false⟩

/-- Modelled from the spec: already-rendered text (spec section 3). -/
structure FormattedString where
  value : String
deriving DecidableEq, Repr

/-- Modelled from the spec: person record (spec section 3): name and
optional given-name, prefix, suffix, alias. The source field `prefix`
is a Lean keyword and is rendered `prefixPart`; likewise `alias` is
rendered `aliasPart`. -/
structure Person where
  name : String
  given_name : Option String
  prefixPart : Option String
  suffix : Option String
  aliasPart : Option String
deriving DecidableEq, Repr

/-- Modelled from the spec: person role enumeration of the missing
`types` module; unmatched role strings become `Unknown` carrying the
raw string (spec section 4.4). -/
inductive PersonRole where
  | Translator
  | Editor
  | Unknown (s : String)
deriving DecidableEq, Repr

/-- Modelled from the spec: opaque date value produced by the external
date parser (spec section 6); its internal grammar is out of scope. -/
structure Date where
  raw : String
deriving DecidableEq, Repr

/-- Modelled from the spec: opaque duration value produced by the
external duration parser (spec section 6). -/
structure Duration where
  v : Int
deriving DecidableEq, Repr

def Duration.sub (a b : Duration) : Duration :=
  ⟨a.v - b.v⟩

/-- Modelled from the spec: opaque parsed URL (spec section 6). -/
structure Url where
  raw : String
deriving DecidableEq, Repr

/-- Qualified URL: URL value plus optional associated date
(spec section 3; `QualifiedUrl` of the missing `types` module). -/
structure QualifiedUrl where
  value : Url
  visit_date : Option Date
deriving DecidableEq, Repr

/-- Modelled from the spec: opaque language tag (spec section 6). -/
structure LanguageIdentifier where
  raw : String
deriving DecidableEq, Repr

/-- Integer-or-text union (`NumOrStr` of the missing `types` module,
spec section 3). -/
inductive NumOrStr where
  | Number (i : Int)
  | Str (s : String)
deriving DecidableEq, Repr

/-- Rust `std::ops::Range` as a start and stop pair. The source field
`end` is a Lean keyword and is rendered `stop`. -/
structure Range (α : Type) where
  start : α
  stop : α
deriving DecidableEq, Repr

/-- Error kind for the opaque external date parser. -/
structure DateError where
deriving DecidableEq, Repr

/-- Error kind for the opaque external person shorthand parser. -/
structure PersonError where
deriving DecidableEq, Repr

/-- Error kind for the opaque external duration parser. -/
structure DurationError where
deriving DecidableEq, Repr

/-- Error kind for the opaque external URL parser. -/
structure UrlParseError where
deriving DecidableEq, Repr

mutual

/-- The closed tagged union of field payload shapes (`FieldTypes`,
src/src/lib.rs lines 21-37). -/
inductive FieldTypes where
  | FormattableString (f : FormattableString)
  | FormattedString (f : FormattedString)
  | Text (s : String)
  | Integer (i : Int)
  | Date (d : Date)
  | Persons (p : List Person)
  | PersonsWithRoles (p : List (List Person × PersonRole))
  | IntegerOrText (n : NumOrStr)
  | Range (r : Range Int)
  | Duration (d : Duration)
  | TimeRange (r : Range Duration)
  | Url (u : QualifiedUrl)
  | Language (l : LanguageIdentifier)
  | Entries (es : List Entry)

/-- A bibliography entry (`Entry`, src/src/lib.rs lines 39-45): a key,
an entry type, and a field-name to field-value mapping (Rust `HashMap`,
modelled as an association list with replace-on-insert). -/
inductive Entry where
  | mk (key : String) (entry_type : EntryType)
      (content : List (String × FieldTypes))

end

def Entry.key : Entry → String
  | .mk k _ _ => k

def Entry.entry_type : Entry → EntryType
  | .mk _ t _ => t

def Entry.content : Entry → List (String × FieldTypes)
  | .mk _ _ c => c

/-- First-match lookup in the content association list, the model of
`HashMap::get`. -/
def lookupField : List (String × FieldTypes) → String → Option FieldTypes
  | [], _ => none
  | (k, v) :: rest, f => if k = f then some v else lookupField rest f

/-- Replace-on-insert into the content association list, the model of
`HashMap::insert`. -/
def insertField : List (String × FieldTypes) → String → FieldTypes →
    List (String × FieldTypes)
  | [], k, v => [(k, v)]
  | (k', v') :: rest, k, v =>
      if k' = k then (k, v) :: rest else (k', v') :: insertField rest k v

/-- `Entry::get` (src/src/lib.rs lines 56-58): raw lookup, no coercion. -/
def Entry.get (e : Entry) (key : String) : Option FieldTypes :=
  lookupField e.content key

/-- `Entry::set` (src/src/lib.rs lines 60-62): unconditional overwrite
or insert. -/
def Entry.set (e : Entry) (key : String) (value : FieldTypes) : Entry :=
  .mk e.key e.entry_type (insertField e.content key value)

/-- Replaces the entry type, used by the `type` field of ingestion. -/
def Entry.withType (e : Entry) (t : EntryType) : Entry :=
  .mk e.key t e.content

/-- Accessor error kinds (`EntryAccessError`, src/src/lib.rs lines
65-71). -/
inductive EntryAccessError where
  | NoSuchField
  | WrongType
deriving DecidableEq, Repr

/-! Conversions from a field value to each concrete shape. The Rust
`TryFrom<FieldTypes>` impls live in the missing `types` module, so they
are modelled from the spec (section 4.1): "Conversion from Field Value
to a concrete shape: partial; fails with a wrong shape error if the
stored variant does not match the requested shape", with no silent
coercion across shapes. -/

def FieldTypes.asFormattableString :
    FieldTypes → Except EntryAccessError Hayagriva.FormattableString
  | .FormattableString f => .ok f
  | _ => .error .WrongType

def FieldTypes.asText : FieldTypes → Except EntryAccessError String
  | .Text s => .ok s
  | _ => .error .WrongType

def FieldTypes.asInteger : FieldTypes → Except EntryAccessError Int
  | .Integer i => .ok i
  | _ => .error .WrongType

def FieldTypes.asPersons : FieldTypes → Except EntryAccessError (List Person)
  | .Persons p => .ok p
  | _ => .error .WrongType

def FieldTypes.asPersonsWithRoles :
    FieldTypes → Except EntryAccessError (List (List Person × PersonRole))
  | .PersonsWithRoles p => .ok p
  | _ => .error .WrongType

def FieldTypes.asNumOrStr : FieldTypes → Except EntryAccessError NumOrStr
  | .IntegerOrText n => .ok n
  | _ => .error .WrongType

def FieldTypes.asRange :
    FieldTypes → Except EntryAccessError (Hayagriva.Range Int)
  | .Range r => .ok r
  | _ => .error .WrongType

def FieldTypes.asDuration :
    FieldTypes → Except EntryAccessError Hayagriva.Duration
  | .Duration d => .ok d
  | _ => .error .WrongType

def FieldTypes.asTimeRange :
    FieldTypes → Except EntryAccessError (Hayagriva.Range Hayagriva.Duration)
  | .TimeRange r => .ok r
  | _ => .error .WrongType

def FieldTypes.asUrl : FieldTypes → Except EntryAccessError QualifiedUrl
  | .Url u => .ok u
  | _ => .error .WrongType

def FieldTypes.asLanguage :
    FieldTypes → Except EntryAccessError LanguageIdentifier
  | .Language l => .ok l
  | _ => .error .WrongType

def FieldTypes.asEntries : FieldTypes → Except EntryAccessError (List Entry)
  | .Entries es => .ok es
  | _ => .error .WrongType

/-! Shape discriminators, used to state shape mismatch. -/

def FieldTypes.isFormattableStringShape : FieldTypes → Bool
  | .FormattableString _ => true
  | _ => false

def FieldTypes.isTextShape : FieldTypes → Bool
  | .Text _ => true
  | _ => false

def FieldTypes.isIntegerShape : FieldTypes → Bool
  | .Integer _ => true
  | _ => false

def FieldTypes.isPersonsShape : FieldTypes → Bool
  | .Persons _ => true
  | _ => false

def FieldTypes.isPersonsWithRolesShape : FieldTypes → Bool
  | .PersonsWithRoles _ => true
  | _ => false

def FieldTypes.isNumOrStrShape : FieldTypes → Bool
  | .IntegerOrText _ => true
  | _ => false

def FieldTypes.isRangeShape : FieldTypes → Bool
  | .Range _ => true
  | _ => false

def FieldTypes.isDurationShape : FieldTypes → Bool
  | .Duration _ => true
  | _ => false

def FieldTypes.isTimeRangeShape : FieldTypes → Bool
  | .TimeRange _ => true
  | _ => false

def FieldTypes.isUrlShape : FieldTypes → Bool
  | .Url _ => true
  | _ => false

def FieldTypes.isLanguageShape : FieldTypes → Bool
  | .Language _ => true
  | _ => false

def FieldTypes.isEntriesShape : FieldTypes → Bool
  | .Entries _ => true
  | _ => false

/-! Typed accessor pairs. The Rust source generates them with the
`fields!` macro (src/src/lib.rs lines 73-100): the getter is
`self.get(name).ok_or(NoSuchField).and_then(try_from)`, the setter is
`self.set(name, FieldTypes::from(item))`. Each pair below is one
instantiation of that macro, written out. -/

def Entry.get_parents (e : Entry) : Except EntryAccessError (List Entry) :=
  match e.get "parent" with
  | none => .error .NoSuchField
  | some item => item.asEntries

def Entry.set_parents (e : Entry) (item : List Entry) : Entry :=
  e.set "parent" (.Entries item)

def Entry.get_title (e : Entry) : Except EntryAccessError FormattableString :=
  match e.get "title" with
  | none => .error .NoSuchField
  | some item => item.asFormattableString

def Entry.set_title (e : Entry) (item : FormattableString) : Entry :=
  e.set "title" (.FormattableString item)

/-- `get_authors` (src/src/lib.rs lines 108-112):
`self.get("author").map(|item| try_from(item.clone()).unwrap())
.unwrap_or_else(|| vec![])`. The `.unwrap()` panics when the stored
variant is not `Persons`; the panic is modelled as `none`. -/
def Entry.get_authors (e : Entry) : Option (List Person) :=
  match e.get "author" with
  | none => some []
  | some item =>
    match item.asPersons with
    | .ok p => some p
    | .error _ => none

def Entry.set_authors (e : Entry) (item : List Person) : Entry :=
  e.set "author" (.Persons item)

def Entry.get_editor (e : Entry) : Except EntryAccessError (List Person) :=
  match e.get "editor" with
  | none => .error .NoSuchField
  | some item => item.asPersons

def Entry.set_editor (e : Entry) (item : List Person) : Entry :=
  e.set "editor" (.Persons item)

def Entry.get_affiliated_persons (e : Entry) :
    Except EntryAccessError (List (List Person × PersonRole)) :=
  match e.get "affiliated" with
  | none => .error .NoSuchField
  | some item => item.asPersonsWithRoles

def Entry.set_affiliated_persons (e : Entry)
    (item : List (List Person × PersonRole)) : Entry :=
  e.set "affiliated" (.PersonsWithRoles item)

def Entry.get_organization (e : Entry) : Except EntryAccessError String :=
  match e.get "organization" with
  | none => .error .NoSuchField
  | some item => item.asText

def Entry.set_organization (e : Entry) (item : String) : Entry :=
  e.set "organization" (.Text item)

def Entry.get_issue (e : Entry) : Except EntryAccessError NumOrStr :=
  match e.get "issue" with
  | none => .error .NoSuchField
  | some item => item.asNumOrStr

def Entry.set_issue (e : Entry) (item : NumOrStr) : Entry :=
  e.set "issue" (.IntegerOrText item)

def Entry.get_edition (e : Entry) : Except EntryAccessError NumOrStr :=
  match e.get "edition" with
  | none => .error .NoSuchField
  | some item => item.asNumOrStr

def Entry.set_edition (e : Entry) (item : NumOrStr) : Entry :=
  e.set "edition" (.IntegerOrText item)

def Entry.get_version (e : Entry) : Except EntryAccessError String :=
  match e.get "version" with
  | none => .error .NoSuchField
  | some item => item.asText

def Entry.set_version (e : Entry) (item : String) : Entry :=
  e.set "version" (.Text item)

def Entry.get_volume (e : Entry) : Except EntryAccessError (Range Int) :=
  match e.get "volume" with
  | none => .error .NoSuchField
  | some item => item.asRange

def Entry.set_volume (e : Entry) (item : Range Int) : Entry :=
  e.set "volume" (.Range item)

def Entry.get_total_volumes (e : Entry) : Except EntryAccessError Int :=
  match e.get "volume-total" with
  | none => .error .NoSuchField
  | some item => item.asInteger

def Entry.set_total_volumes (e : Entry) (item : Int) : Entry :=
  e.set "volume-total" (.Integer item)

def Entry.get_page_range (e : Entry) : Except EntryAccessError (Range Int) :=
  match e.get "page-range" with
  | none => .error .NoSuchField
  | some item => item.asRange

def Entry.set_page_range (e : Entry) (item : Range Int) : Entry :=
  e.set "page-range" (.Range item)

/-- `get_page_total` (src/src/lib.rs lines 130-136): read `page-total`;
only when that field is absent, fall back to the `page-range` accessor
and use `end - start`; finally convert to an integer. -/
def Entry.get_page_total (e : Entry) : Except EntryAccessError Int :=
  let step : Except EntryAccessError FieldTypes :=
    match e.get "page-total" with
    | some ft => .ok ft
    | none => e.get_page_range.map (fun r => .Integer (r.stop - r.start))
  step.bind FieldTypes.asInteger

def Entry.set_total_pages (e : Entry) (item : Int) : Entry :=
  e.set "page-total" (.Integer item)

def Entry.get_time_range (e : Entry) :
    Except EntryAccessError (Range Duration) :=
  match e.get "time-range" with
  | none => .error .NoSuchField
  | some item => item.asTimeRange

def Entry.set_time_range (e : Entry) (item : Range Duration) : Entry :=
  e.set "time-range" (.TimeRange item)

/-- `get_runtime` (src/src/lib.rs lines 143-149): read `runtime`; only
when absent, fall back to the `time-range` accessor and use
`end - start`. -/
def Entry.get_runtime (e : Entry) : Except EntryAccessError Duration :=
  let step : Except EntryAccessError FieldTypes :=
    match e.get "runtime" with
    | some ft => .ok ft
    | none => e.get_time_range.map (fun r => .Duration (r.stop.sub r.start))
  step.bind FieldTypes.asDuration

def Entry.set_runtime (e : Entry) (item : Duration) : Entry :=
  e.set "runtime" (.Duration item)

def Entry.get_issn (e : Entry) : Except EntryAccessError String :=
  match e.get "issn" with
  | none => .error .NoSuchField
  | some item => item.asText

def Entry.set_issn (e : Entry) (item : String) : Entry :=
  e.set "issn" (.Text item)

def Entry.get_isbn (e : Entry) : Except EntryAccessError String :=
  match e.get "isbn" with
  | none => .error .NoSuchField
  | some item => item.asText

def Entry.set_isbn (e : Entry) (item : String) : Entry :=
  e.set "isbn" (.Text item)

def Entry.get_doi (e : Entry) : Except EntryAccessError String :=
  match e.get "doi" with
  | none => .error .NoSuchField
  | some item => item.asText

def Entry.set_doi (e : Entry) (item : String) : Entry :=
  e.set "doi" (.Text item)

def Entry.get_serial_number (e : Entry) : Except EntryAccessError String :=
  match e.get "serial-number" with
  | none => .error .NoSuchField
  | some item => item.asText

def Entry.set_serial_number (e : Entry) (item : String) : Entry :=
  e.set "serial-number" (.Text item)

def Entry.get_url (e : Entry) : Except EntryAccessError QualifiedUrl :=
  match e.get "url" with
  | none => .error .NoSuchField
  | some item => item.asUrl

def Entry.set_url (e : Entry) (item : QualifiedUrl) : Entry :=
  e.set "url" (.Url item)

def Entry.get_language (e : Entry) :
    Except EntryAccessError LanguageIdentifier :=
  match e.get "language" with
  | none => .error .NoSuchField
  | some item => item.asLanguage

def Entry.set_language (e : Entry) (item : LanguageIdentifier) : Entry :=
  e.set "language" (.Language item)

def Entry.get_note (e : Entry) : Except EntryAccessError String :=
  match e.get "note" with
  | none => .error .NoSuchField
  | some item => item.asText

def Entry.set_note (e : Entry) (item : String) : Entry :=
  e.set "note" (.Text item)

def Entry.get_location (e : Entry) :
    Except EntryAccessError FormattableString :=
  match e.get "location" with
  | none => .error .NoSuchField
  | some item => item.asFormattableString

def Entry.set_location (e : Entry) (item : FormattableString) : Entry :=
  e.set "location" (.FormattableString item)

def Entry.get_publisher (e : Entry) :
    Except EntryAccessError FormattableString :=
  match e.get "publisher" with
  | none => .error .NoSuchField
  | some item => item.asFormattableString

def Entry.set_publisher (e : Entry) (item : FormattableString) : Entry :=
  e.set "publisher" (.FormattableString item)

def Entry.get_archive (e : Entry) :
    Except EntryAccessError FormattableString :=
  match e.get "archive" with
  | none => .error .NoSuchField
  | some item => item.asFormattableString

def Entry.set_archive (e : Entry) (item : FormattableString) : Entry :=
  e.set "archive" (.FormattableString item)

def Entry.get_archive_location (e : Entry) :
    Except EntryAccessError FormattableString :=
  match e.get "archive-location" with
  | none => .error .NoSuchField
  | some item => item.asFormattableString

def Entry.set_archive_location (e : Entry) (item : FormattableString) :
    Entry :=
  e.set "archive-location" (.FormattableString item)

mutual

/-- `check_with_spec` (src/src/lib.rs lines 168-182): the type must
satisfy the constraint head; then every child constraint must be
satisfied by at least one nested parent entry, the `parent` field being
read through `get_parents` with errors swallowed to the empty list. -/
def Entry.check_with_spec (e : Entry) : EntryTypeSpec → Bool
  | .mk here parents =>
    if !(e.entry_type.check here) then false
    else
      let ps := match e.get_parents with
        | .ok l => l
        | .error _ => []
      checkParentConstraints ps parents

/-- The loop over `constraint.parents` inside `check_with_spec`
(src/src/lib.rs lines 175-179). -/
def checkParentConstraints (ps : List Entry) : List EntryTypeSpec → Bool
  | [] => true
  | pc :: rest =>
      ps.any (fun p => p.check_with_spec pc) && checkParentConstraints ps rest

end

/-! The generic document tree produced by the external yaml parser
(`yaml_rust::Yaml`): scalar, sequence and mapping nodes. `Real` keeps
the raw scalar text, as yaml_rust does. -/

inductive Yaml where
  | String (s : String)
  | Integer (i : Int)
  | Real (s : String)
  | Boolean (b : Bool)
  | Array (l : List Yaml)
  | Hash (l : List (Yaml × Yaml))
  | Null

/-- Rust `str::to_lowercase`, written structurally so that closed
instances reduce inside the kernel; the ASCII fragment the entry type
and role names use. -/
def to_lowercase (s : String) : String :=
  String.mk (s.data.map Char.toLower)

/-- `Yaml::into_string`: the string payload of a string node. The
constructor `Yaml.String` shadows the builtin name inside the `Yaml`
namespace, hence the detour through an unqualified definition. -/
def yamlIntoString : Yaml → Option String
  | .String s => some s
  | _ => none

def Yaml.into_string :=
  yamlIntoString

/-- `Yaml::as_str`: same selectivity as `into_string`. -/
def Yaml.as_str :=
  yamlIntoString

/-- `Yaml::as_i64` / `Yaml::into_i64`: the payload of an integer node. -/
def Yaml.as_i64 : Yaml → Option Int
  | .Integer i => some i
  | _ => none

def Yaml.into_i64 : Yaml → Option Int :=
  Yaml.as_i64

/-- `Yaml::as_bool`: the payload of a boolean node. -/
def Yaml.as_bool : Yaml → Option Bool
  | .Boolean b => some b
  | _ => none

/-- `Yaml::into_hash`: the pair list of a mapping node. -/
def Yaml.into_hash : Yaml → Option (List (Yaml × Yaml))
  | .Hash l => some l
  | _ => none

/-- `Yaml::is_array`. -/
def Yaml.is_array : Yaml → Bool
  | .Array _ => true
  | _ => false

/-- Modelled from the spec: floating-point scalars are stringified in
the generic-text fallback (spec section 4.4); float formatting belongs
to the external number library and is modelled as the raw scalar
text. -/
def f64_to_string (s : String) : String := s

/-- Opaque scan error of the external yaml parser. -/
structure ScanError where
deriving DecidableEq, Repr

/-- Formattable-string ingestion errors
(`YamlFormattableStringError`, src/src/lib.rs lines 214-224). -/
inductive YamlFormattableStringError where
  | KeyIsNoString
  | ValueIsNoString
  | NoValue
  | VerbatimNotBool
deriving DecidableEq, Repr

/-- Per-field data errors (`YamlDataTypeError`, src/src/lib.rs lines
226-246). -/
inductive YamlDataTypeError where
  | FormattableString (e : YamlFormattableStringError)
  | Date (e : DateError)
  | Person (e : PersonError)
  | Duration (e : DurationError)
  | Url (e : UrlParseError)
  | Range
  | EmptyArrayElement
  | MissingRequiredField
  | MismatchedPrimitive
deriving DecidableEq, Repr

/-- Document-level ingestion errors (`YamlBibliographyError`,
src/src/lib.rs lines 185-212). -/
inductive YamlBibliographyError where
  | Scan (e : ScanError)
  | Structure
  | EntryStructure (key : String)
  | FieldNameUnparsable (key : String)
  | KeyUnparsable
  | DataTypeMismatch (key field expected : String)
  | DataType (key field : String) (source : YamlDataTypeError)
deriving DecidableEq, Repr

/-- `YamlBibliographyError::new_data_type_error`
(src/src/lib.rs lines 249-255). -/
def newDataTypeError (key field expected : String) : YamlBibliographyError :=
  .DataTypeMismatch key field expected

/-- `YamlBibliographyError::new_data_type_src_error`
(src/src/lib.rs lines 257-267). -/
def newDataTypeSrcError (key field : String) (e : YamlDataTypeError) :
    YamlBibliographyError :=
  .DataType key field e

/-- Modelled from the spec: the external collaborator parse functions
of spec section 6 (`types` module, url crate, language crate), consumed
but not implemented by the ingestion engine. The engine is defined for
an arbitrary bundle of them. -/
structure Externals where
  entryTypeFromStr : String → Option EntryType
  personRoleFromStr : String → Option PersonRole
  personFromStrings : List String → Except PersonError Person
  dateFromStr : String → Except DateError Date
  dateFromYear : Int → Date
  durationFromStr : String → Except DurationError Duration
  durationRangeFromStr : String → Except DurationError (Range Duration)
  urlParse : String → Except UrlParseError Url
  languageParse : String → Option LanguageIdentifier
  getRange : String → Option (Range Int)

/-- `yaml_hash_map_with_string_keys` (src/src/lib.rs lines 282-294):
keep only pairs whose key node is a string, with the string as key. -/
def yaml_hash_map_with_string_keys (map : List (Yaml × Yaml)) :
    List (String × Yaml) :=
  map.filterMap (fun kv =>
    match kv.1.into_string with
    | some k => some (k, kv.2)
    | none => none)

/-- First-match lookup, the model of `LinkedHashMap::get` on the
string-keyed map. -/
def lookupYaml : List (String × Yaml) → String → Option Yaml
  | [], _ => none
  | (k, v) :: rest, f => if k = f then some v else lookupYaml rest f

/-- `formattable_str_from_hash_map` (src/src/lib.rs lines 296-348):
collect the string values of `value`, `sentence-case` and `title-case`
in that order; empty collection is `NoValue`; otherwise the first
collected string is the value, `verbatim` must be boolean if present,
and the two case alternates must be strings if present. -/
def formattable_str_from_hash_map (map : List (Yaml × Yaml)) :
    Except YamlFormattableStringError FormattableString :=
  let smap := yaml_hash_map_with_string_keys map
  let fields := ["value", "sentence-case", "title-case"].filterMap
    (fun f => (lookupYaml smap f).bind Yaml.into_string)
  match fields with
  | [] => .error .NoValue
  | value :: _ =>
    match
      (match lookupYaml smap "verbatim" with
       | some verbatim =>
         match verbatim.as_bool with
         | some b => Except.ok b
         | none => Except.error YamlFormattableStringError.VerbatimNotBool
       | none => Except.ok false) with
    | .error e => .error e
    | .ok verbatim =>
      match
        (match lookupYaml smap "sentence-case" with
         | some sentence_case =>
           match sentence_case.into_string with
           | some s => Except.ok (some s)
           | none => Except.error YamlFormattableStringError.ValueIsNoString
         | none => Except.ok none) with
      | .error e => .error e
      | .ok sentence_case =>
        match
          (match lookupYaml smap "title-case" with
           | some title_case =>
             match title_case.into_string with
             | some s => Except.ok (some s)
             | none => Except.error YamlFormattableStringError.ValueIsNoString
           | none => Except.ok none) with
        | .error e => .error e
        | .ok title_case =>
          .ok (FormattableString.new value title_case sentence_case verbatim)

/-- `person_from_yaml` (src/src/lib.rs lines 350-394): mapping form
with required `name` and optional `given_name`, `prefix`, `suffix`,
`alias`; or comma-separated shorthand string; anything else is a
`person` type mismatch. -/
def person_from_yaml (ext : Externals) (item : Yaml) (key field_name : String) :
    Except YamlBibliographyError Person :=
  match item with
  | .Hash m =>
    let map := yaml_hash_map_with_string_keys m
    match (lookupYaml map "name").bind Yaml.into_string with
    | none =>
      .error (newDataTypeSrcError key field_name .MissingRequiredField)
    | some name =>
      .ok
        { name := name
          given_name := (lookupYaml map "given_name").bind Yaml.into_string
          prefixPart := (lookupYaml map "prefix").bind Yaml.into_string
          suffix := (lookupYaml map "suffix").bind Yaml.into_string
          aliasPart := (lookupYaml map "alias").bind Yaml.into_string }
  | .String s =>
    match ext.personFromStrings (s.splitOn ",") with
    | .ok p => .ok p
    | .error e => .error (newDataTypeSrcError key field_name (.Person e))
  | _ => .error (newDataTypeError key field_name "person")

/-- `persons_from_yaml` (src/src/lib.rs lines 396-411): a sequence of
persons, or a single person for a non-sequence node. -/
def persons_from_yaml (ext : Externals) (value : Yaml)
    (key field_name : String) :
    Except YamlBibliographyError (List Person) :=
  match value with
  | .Array items => items.mapM (fun item => person_from_yaml ext item key field_name)
  | v =>
    match person_from_yaml ext v key field_name with
    | .ok p => .ok [p]
    | .error e => .error e

/-- One element of the `affiliated` sequence (src/src/lib.rs lines
480-525): a mapping with required `names` and `role`; unmatched role
strings degrade to `Unknown`. -/
def affiliated_from_yaml (ext : Externals) (item : Yaml)
    (key field_name : String) :
    Except YamlBibliographyError (List Person × PersonRole) :=
  match item.into_hash with
  | none => .error (newDataTypeError key field_name "affiliated person")
  | some m =>
    let map := yaml_hash_map_with_string_keys m
    match lookupYaml map "names" with
    | none =>
      .error (newDataTypeSrcError key field_name .MissingRequiredField)
    | some namesYaml =>
      match persons_from_yaml ext namesYaml key field_name with
      | .error e => .error e
      | .ok persons =>
        match lookupYaml map "role" with
        | none =>
          .error (newDataTypeSrcError key field_name .MissingRequiredField)
        | some roleYaml =>
          match roleYaml.into_string with
          | none =>
            .error (newDataTypeSrcError key field_name .MismatchedPrimitive)
          | some role =>
            let role' := match ext.personRoleFromStr (to_lowercase role) with
              | some r => r
              | none => PersonRole.Unknown role
            .ok (persons, role')

mutual

/-- `entry_from_yaml` (src/src/lib.rs lines 413-756): the entry body
must be a mapping; the entry starts with the given key, type `Misc` and
empty content, and the fields are folded in order. -/
def entry_from_yaml (ext : Externals) (key : String) (yaml : Yaml) :
    Except YamlBibliographyError Entry :=
  match yaml with
  | .Hash pairs => entry_fields ext key pairs (.mk key .Misc [])
  | _ => .error (.EntryStructure key)

/-- The field loop of `entry_from_yaml` (src/src/lib.rs lines 419-751):
each field name must be a string; `type` mutates the entry type in
place (unmatched strings are ignored); every other field is coerced by
`field_value` and inserted. -/
def entry_fields (ext : Externals) (key : String)
    (pairs : List (Yaml × Yaml)) (e : Entry) :
    Except YamlBibliographyError Entry :=
  match pairs with
  | [] => .ok e
  | (fname, value) :: rest =>
    match fname.into_string with
    | none => .error (.FieldNameUnparsable key)
    | some field_name =>
      if field_name = "type" then
        match value.into_string with
        | none =>
          .error (newDataTypeSrcError key field_name .MismatchedPrimitive)
        | some val =>
          match ext.entryTypeFromStr (to_lowercase val) with
          | some tp => entry_fields ext key rest (e.withType tp)
          | none => entry_fields ext key rest e
      else
        match field_value ext key field_name value with
        | .error err => .error err
        | .ok v => entry_fields ext key rest (e.set field_name v)

/-- The per-field-name coercion match of `entry_from_yaml`
(src/src/lib.rs lines 445-748). -/
def field_value (ext : Externals) (key field_name : String) (value : Yaml) :
    Except YamlBibliographyError FieldTypes :=
  match field_name with
  | "title" | "publisher" | "location" | "archive" | "archive-location" =>
    match value with
    | .Hash m =>
      match formattable_str_from_hash_map m with
      | .ok f => .ok (.FormattableString f)
      | .error e =>
        .error (newDataTypeSrcError key field_name (.FormattableString e))
    | v =>
      match v.into_string with
      | some t => .ok (.FormattableString (FormattableString.new_shorthand t))
      | none =>
        .error (newDataTypeError key field_name "text or formattable string")
  | "author" | "editor" =>
    match persons_from_yaml ext value key field_name with
    | .ok p => .ok (.Persons p)
    | .error e => .error e
  | "affiliated" =>
    match value with
    | .Array items =>
      match items.mapM (fun item => affiliated_from_yaml ext item key field_name) with
      | .ok res => .ok (.PersonsWithRoles res)
      | .error e => .error e
    | _ => .error (newDataTypeError key field_name "affiliated person")
  | "date" =>
    match value.as_i64 with
    | some y => .ok (.Date (ext.dateFromYear y))
    | none =>
      match value.into_string with
      | some s =>
        match ext.dateFromStr s with
        | .ok d => .ok (.Date d)
        | .error e => .error (newDataTypeSrcError key field_name (.Date e))
      | none => .error (newDataTypeError key field_name "date")
  | "issue" | "edition" =>
    match value.as_i64 with
    | some i => .ok (.IntegerOrText (.Number i))
    | none =>
      match value.into_string with
      | some t => .ok (.IntegerOrText (.Str t))
      | none => .error (newDataTypeError key field_name "integer or text")
  | "volume-total" | "page-total" =>
    match value.into_i64 with
    | some i => .ok (.Integer i)
    | none => .error (newDataTypeError key field_name "integer")
  | "volume" | "page-range" =>
    match value.as_i64 with
    | some n => .ok (.Range ⟨n, n⟩)
    | none =>
      match value.into_string with
      | some s =>
        match ext.getRange s with
        | some r => .ok (.Range r)
        | none => .error (newDataTypeSrcError key field_name .Range)
      | none => .error (newDataTypeError key field_name "integer range")
  | "runtime" =>
    match value.into_string with
    | none => .error (newDataTypeError key field_name "duration")
    | some s =>
      match ext.durationFromStr s with
      | .ok d => .ok (.Duration d)
      | .error e => .error (newDataTypeSrcError key field_name (.Duration e))
  | "time-range" =>
    match value.into_string with
    | none => .error (newDataTypeError key field_name "duration")
    | some s =>
      match ext.durationRangeFromStr s with
      | .ok r => .ok (.TimeRange r)
      | .error e => .error (newDataTypeSrcError key field_name (.Duration e))
  | "url" =>
    match value.as_str with
    | some s =>
      match ext.urlParse s with
      | .ok url => .ok (.Url ⟨url, none⟩)
      | .error e => .error (newDataTypeSrcError key field_name (.Url e))
    | none =>
      match value.into_hash with
      | none => .error (newDataTypeError key field_name "qualified url")
      | some m =>
        let map := yaml_hash_map_with_string_keys m
        match lookupYaml map "value" with
        | none =>
          .error (newDataTypeSrcError key field_name .MissingRequiredField)
        | some v =>
          match v.into_string with
          | none =>
            .error (newDataTypeSrcError key field_name .MismatchedPrimitive)
          | some s =>
            match ext.urlParse s with
            | .error e => .error (newDataTypeSrcError key field_name (.Url e))
            | .ok url =>
              match lookupYaml map "date" with
              | none => .ok (.Url ⟨url, none⟩)
              | some d =>
                match d.as_i64 with
                | some y => .ok (.Url ⟨url, some (ext.dateFromYear y)⟩)
                | none =>
                  match d.into_string with
                  | some ds =>
                    match ext.dateFromStr ds with
                    | .ok dd => .ok (.Url ⟨url, some dd⟩)
                    | .error e =>
                      .error (newDataTypeSrcError key field_name (.Date e))
                  | none =>
                    .error
                      (newDataTypeSrcError key field_name .MismatchedPrimitive)
  | "language" =>
    match value.into_string with
    | some s =>
      match ext.languageParse s with
      | some l => .ok (.Language l)
      | none =>
        .error (newDataTypeError key field_name "unicode language identifier")
    | none =>
      .error (newDataTypeError key field_name "unicode language identifier")
  | "parent" =>
    match value with
    | .Array l =>
      match parent_entries ext key l with
      | .ok es => .ok (.Entries es)
      | .error e => .error e
    | v =>
      match entry_from_yaml ext key v with
      | .ok e => .ok (.Entries [e])
      | .error e => .error e
  | _ =>
    match value.into_string with
    | some t => .ok (.Text t)
    | none =>
      match value.as_i64 with
      | some i => .ok (.Text (toString i))
      | none =>
        match value with
        | .Real s => .ok (.Text (f64_to_string s))
        | _ => .error (newDataTypeError key field_name "text")

/-- The `parent` sequence loop of `entry_from_yaml`
(src/src/lib.rs lines 721-728). -/
def parent_entries (ext : Externals) (key : String) :
    List Yaml → Except YamlBibliographyError (List Entry)
  | [] => .ok []
  | y :: rest =>
    match entry_from_yaml ext key y with
    | .error e => .error e
    | .ok e =>
      match parent_entries ext key rest with
      | .error e => .error e
      | .ok l => .ok (e :: l)

end

/-- The per-entry loop of `load_yaml_structure`
(src/src/lib.rs lines 273-277): each top-level key must be a string
and each body is ingested, fail-fast in order. -/
def load_entries (ext : Externals) :
    List (Yaml × Yaml) → Except YamlBibliographyError (List Entry)
  | [] => .ok []
  | (k, fields) :: rest =>
    match k.into_string with
    | none => .error .KeyUnparsable
    | some key =>
      match entry_from_yaml ext key fields with
      | .error e => .error e
      | .ok e =>
        match load_entries ext rest with
        | .error e => .error e
        | .ok l => .ok (e :: l)

/-- `load_yaml_structure` (src/src/lib.rs lines 270-280), modelled
after the external `YamlLoader::load_from_str` call: `docs` is the
document list that call returned. The source indexes `docs[0]` without
a bounds check, so an empty document list is an out-of-bounds panic,
modelled as `none`; otherwise the first document must be a mapping
(else `Structure`) and its entries are ingested in order. -/
def load_yaml_structure (ext : Externals) (docs : List Yaml) :
    Option (Except YamlBibliographyError (List Entry)) :=
  match docs with
  | [] => none
  | doc :: _ =>
    some
      (match doc.into_hash with
       | none => .error .Structure
       | some pairs => load_entries ext pairs)

/-- Splits a character list at every dash, written structurally so that
closed instances reduce inside the kernel. -/
def splitDash : List Char → List (List Char)
  | [] => [[]]
  | c :: rest =>
    let r := splitDash rest
    if c = '-' then [] :: r
    else
      match r with
      | s :: t => (c :: s) :: t
      | [] => [[c]]

/-- Reads a nonempty all-digit character list as a number, written
structurally so that closed instances reduce inside the kernel. -/
def parseNatChars (l : List Char) : Option Nat :=
  match l with
  | [] => none
  | _ =>
    l.foldl (fun acc c =>
      match acc with
      | none => none
      | some n => if c.isDigit then some (n * 10 + (c.toNat - 48)) else none)
      (some 0)

/-- Modelled from the spec: a concrete instance of the external parser
bundle, used only to evaluate the engine on closed inputs in witness
theorems. -/
def default_externals : Externals where
  entryTypeFromStr s :=
    match s with
    | "article" => some .Article
    | "periodical" => some .Periodical
    | "book" => some .Book
    | "web" => some .Web
    | "misc" => some .Misc
    | _ => none
  personRoleFromStr s :=
    match s with
    | "translator" => some .Translator
    | "editor" => some .Editor
    | _ => none
  personFromStrings parts :=
    match parts with
    | [] => .error ⟨⟩
    | [n] => .ok ⟨n.trim, none, none, none, none⟩
    | n :: g :: _ => .ok ⟨n.trim, some g.trim, none, none, none⟩
  dateFromStr s := .ok ⟨s⟩
  dateFromYear y := ⟨toString y⟩
  durationFromStr _ := .ok ⟨0⟩
  durationRangeFromStr _ := .ok ⟨⟨0⟩, ⟨0⟩⟩
  urlParse s := .ok ⟨s⟩
  languageParse s := some ⟨s⟩
  getRange s :=
    match splitDash s.data with
    | [a, b] =>
      match parseNatChars a, parseNatChars b with
      | some x, some y => some ⟨(x : Int), (y : Int)⟩
      | _, _ => none
    | _ => none

/-! Helper lemmas about the content map. -/

theorem lookupField_insertField (c : List (String × FieldTypes)) (k : String)
    (v : FieldTypes) : lookupField (insertField c k v) k = some v := by
  induction c with
  | nil => simp [insertField, lookupField]
  | cons hd tl ih =>
    obtain ⟨k', v'⟩ := hd
    by_cases h : k' = k <;> simp [insertField, lookupField, h, ih]

theorem get_set (e : Entry) (k : String) (v : FieldTypes) :
    (e.set k v).get k = some v := by
  simp [Entry.get, Entry.set, Entry.content, lookupField_insertField]

theorem set_key (e : Entry) (k : String) (v : FieldTypes) :
    (e.set k v).key = e.key := by
  simp [Entry.set, Entry.key]

theorem set_entry_type (e : Entry) (k : String) (v : FieldTypes) :
    (e.set k v).entry_type = e.entry_type := by
  simp [Entry.set, Entry.entry_type]

theorem withType_key (e : Entry) (t : EntryType) :
    (e.withType t).key = e.key := by
  simp [Entry.withType, Entry.key]

/-- The constraint loop returns true exactly when every child
constraint has a satisfying parent. -/
theorem checkParentConstraints_iff (ps : List Entry)
    (l : List EntryTypeSpec) :
    checkParentConstraints ps l = true ↔
      ∀ pc ∈ l, ∃ p ∈ ps, p.check_with_spec pc = true := by
  induction l with
  | nil => simp [checkParentConstraints]
  | cons pc rest ih =>
    simp [checkParentConstraints, List.any_eq_true, ih]

/-- The parent sequence as the claim describes it: the payload of an
Entries-shaped `parent` field, the empty sequence when that field is
absent. -/
def parent_sequence (e : Entry) : List Entry :=
  match e.get "parent" with
  | some (.Entries l) => l
  | _ => []

/-- C4: for every entry and constraint spec, `check_with_spec` returns
true if and only if the entry type satisfies the head of the spec and
every child constraint is satisfied by at least one entry of the parent
sequence (the Entries payload of the `parent` field, empty when that
field is absent) under a recursive application of `check_with_spec`;
the function is pure, so nothing is mutated. -/
theorem check_with_spec_characterisation (e : Entry) (c : EntryTypeSpec)
    (h : e.get "parent" = none ∨ ∃ l, e.get "parent" = some (.Entries l)) :
    e.check_with_spec c = true ↔
      (e.entry_type.check c.here = true ∧
        ∀ pc ∈ c.parents, ∃ p ∈ parent_sequence e,
          p.check_with_spec pc = true) := by
  obtain ⟨here, parents⟩ := c
  have hps : (match e.get_parents with
      | .ok l => l
      | .error _ => []) = parent_sequence e := by
    rcases h with h | ⟨l, h⟩ <;>
      simp [Entry.get_parents, parent_sequence, h, FieldTypes.asEntries]
  cases hc : e.entry_type.check here <;>
    simp [Entry.check_with_spec, hps, hc, EntryTypeSpec.here,
      EntryTypeSpec.parents, checkParentConstraints_iff]

/-- C4 witness: the spec example; an article inside a periodical
satisfies the article-in-periodical constraint. -/
theorem check_with_spec_characterisation_witness :
    ((Entry.mk "a" .Article
        [("parent", .Entries [Entry.mk "a" .Periodical []])]).get "parent"
      = some (.Entries [Entry.mk "a" .Periodical []])) ∧
    ((Entry.mk "a" .Article
        [("parent", .Entries [Entry.mk "a" .Periodical []])]).check_with_spec
          (.mk .Article [.mk .Periodical []]) = true ↔
      ((Entry.mk "a" .Article
          [("parent", .Entries [Entry.mk "a" .Periodical []])]).entry_type.check
            (EntryTypeSpec.mk .Article [.mk .Periodical []]).here = true ∧
        ∀ pc ∈ (EntryTypeSpec.mk .Article [.mk .Periodical []]).parents,
          ∃ p ∈ parent_sequence
            (Entry.mk "a" .Article
              [("parent", .Entries [Entry.mk "a" .Periodical []])]),
            p.check_with_spec pc = true)) :=
  ⟨rfl, check_with_spec_characterisation _ _ (Or.inr ⟨_, rfl⟩)⟩

/-- C5: `get_page_total` returns the stored `page-total` integer when
present with integer shape; when it is absent and `page-range` is
present with range shape it returns the range end minus the range
start; when both are absent it fails with `NoSuchField`. -/
theorem get_page_total_spec :
    (∀ (e : Entry) (n : Int), e.get "page-total" = some (.Integer n) →
      e.get_page_total = .ok n) ∧
    (∀ (e : Entry) (r : Range Int), e.get "page-total" = none →
      e.get "page-range" = some (.Range r) →
      e.get_page_total = .ok (r.stop - r.start)) ∧
    (∀ e : Entry, e.get "page-total" = none → e.get "page-range" = none →
      e.get_page_total = .error .NoSuchField) := by
  refine ⟨?_, ?_, ?_⟩
  · intro e n h
    simp [Entry.get_page_total, h, FieldTypes.asInteger, Except.bind]
  · intro e r h1 h2
    simp [Entry.get_page_total, h1, Entry.get_page_range, h2,
      FieldTypes.asRange, FieldTypes.asInteger, Except.map, Except.bind]
  · intro e h1 h2
    simp [Entry.get_page_total, h1, Entry.get_page_range, h2,
      Except.map, Except.bind]

/-- C5 witness: the three spec examples: a lone page-range 10..50 gives
total 40, an explicit page-total 12 gives 12, and neither field gives
`NoSuchField`. -/
theorem get_page_total_spec_witness :
    (Entry.mk "k" .Misc [("page-total", .Integer 12)]).get_page_total
      = .ok 12 ∧
    (Entry.mk "k" .Misc [("page-range", .Range ⟨10, 50⟩)]).get_page_total
      = .ok 40 ∧
    (Entry.mk "k" .Misc []).get_page_total = .error .NoSuchField :=
  ⟨get_page_total_spec.1 _ 12 rfl,
   get_page_total_spec.2.1 _ ⟨10, 50⟩ rfl rfl,
   get_page_total_spec.2.2 _ rfl rfl⟩

/-- C6: on an entry whose `author` field is absent, `get_authors`
returns the empty person sequence (and in particular does not panic,
the panic being modelled as `none`). -/
theorem get_authors_empty_on_missing (e : Entry)
    (h : e.get "author" = none) : e.get_authors = some [] := by
  simp [Entry.get_authors, h]

/-- C6 witness: an entry with no fields at all. -/
theorem get_authors_empty_on_missing_witness :
    (Entry.mk "k" .Misc []).get_authors = some [] :=
  get_authors_empty_on_missing _ rfl

/-- C7: every typed setter followed by the matching typed getter
returns exactly the value that was set, on any starting entry, for
every accessor pair of the source (the `fields!` instantiations plus
the authors, page-total and runtime pairs with their bespoke
getters). -/
theorem set_get_round_trip (e : Entry) :
    (∀ v, (e.set_parents v).get_parents = .ok v) ∧
    (∀ v, (e.set_title v).get_title = .ok v) ∧
    (∀ v, (e.set_authors v).get_authors = some v) ∧
    (∀ v, (e.set_editor v).get_editor = .ok v) ∧
    (∀ v, (e.set_affiliated_persons v).get_affiliated_persons = .ok v) ∧
    (∀ v, (e.set_organization v).get_organization = .ok v) ∧
    (∀ v, (e.set_issue v).get_issue = .ok v) ∧
    (∀ v, (e.set_edition v).get_edition = .ok v) ∧
    (∀ v, (e.set_version v).get_version = .ok v) ∧
    (∀ v, (e.set_volume v).get_volume = .ok v) ∧
    (∀ v, (e.set_total_volumes v).get_total_volumes = .ok v) ∧
    (∀ v, (e.set_page_range v).get_page_range = .ok v) ∧
    (∀ v, (e.set_total_pages v).get_page_total = .ok v) ∧
    (∀ v, (e.set_time_range v).get_time_range = .ok v) ∧
    (∀ v, (e.set_runtime v).get_runtime = .ok v) ∧
    (∀ v, (e.set_issn v).get_issn = .ok v) ∧
    (∀ v, (e.set_isbn v).get_isbn = .ok v) ∧
    (∀ v, (e.set_doi v).get_doi = .ok v) ∧
    (∀ v, (e.set_serial_number v).get_serial_number = .ok v) ∧
    (∀ v, (e.set_url v).get_url = .ok v) ∧
    (∀ v, (e.set_language v).get_language = .ok v) ∧
    (∀ v, (e.set_note v).get_note = .ok v) ∧
    (∀ v, (e.set_location v).get_location = .ok v) ∧
    (∀ v, (e.set_publisher v).get_publisher = .ok v) ∧
    (∀ v, (e.set_archive v).get_archive = .ok v) ∧
    (∀ v, (e.set_archive_location v).get_archive_location = .ok v) := by
  refine ⟨?_, ?_, ?_, ?_, ?_, ?_, ?_, ?_, ?_, ?_, ?_, ?_, ?_, ?_, ?_, ?_,
    ?_, ?_, ?_, ?_, ?_, ?_, ?_, ?_, ?_, ?_⟩ <;> intro v <;>
    simp [Entry.set_parents, Entry.get_parents, Entry.set_title,
      Entry.get_title, Entry.set_authors, Entry.get_authors,
      Entry.set_editor, Entry.get_editor, Entry.set_affiliated_persons,
      Entry.get_affiliated_persons, Entry.set_organization,
      Entry.get_organization, Entry.set_issue, Entry.get_issue,
      Entry.set_edition, Entry.get_edition, Entry.set_version,
      Entry.get_version, Entry.set_volume, Entry.get_volume,
      Entry.set_total_volumes, Entry.get_total_volumes,
      Entry.set_page_range, Entry.get_page_range, Entry.set_total_pages,
      Entry.get_page_total, Entry.set_time_range, Entry.get_time_range,
      Entry.set_runtime, Entry.get_runtime, Entry.set_issn, Entry.get_issn,
      Entry.set_isbn, Entry.get_isbn, Entry.set_doi, Entry.get_doi,
      Entry.set_serial_number, Entry.get_serial_number, Entry.set_url,
      Entry.get_url, Entry.set_language, Entry.get_language,
      Entry.set_note, Entry.get_note, Entry.set_location,
      Entry.get_location, Entry.set_publisher, Entry.get_publisher,
      Entry.set_archive, Entry.get_archive, Entry.set_archive_location,
      Entry.get_archive_location, get_set, FieldTypes.asEntries,
      FieldTypes.asFormattableString, FieldTypes.asPersons,
      FieldTypes.asPersonsWithRoles, FieldTypes.asText,
      FieldTypes.asNumOrStr, FieldTypes.asRange, FieldTypes.asInteger,
      FieldTypes.asTimeRange, FieldTypes.asDuration, FieldTypes.asUrl,
      FieldTypes.asLanguage, Except.bind, Except.map]

/-- C2 counterexample: on an entry whose `author` field holds a
non-Persons variant (plain text), `get_authors` hits the `.unwrap()` of
src/src/lib.rs line 110 and panics: in the model it yields `none`, so
it neither returns the `WrongType` error value nor any default; the
claim that a mismatched query never crashes is therefore false. -/
theorem get_authors_panics_on_mismatch :
    (Entry.mk "k" .Misc [("author", .Text "x")]).get_authors = none :=
  rfl

/-- C2 amended: every accessor generated by the `fields!` macro returns
the `WrongType` error value when the stored variant differs from the
requested shape; `get_authors` is the one exception: on a non-Persons
`author` variant it panics (modelled as `none`) instead of returning an
error. -/
theorem accessor_wrong_type :
    (∀ (e : Entry) ft, e.get "parent" = some ft →
      ft.isEntriesShape = false → e.get_parents = .error .WrongType) ∧
    (∀ (e : Entry) ft, e.get "title" = some ft →
      ft.isFormattableStringShape = false →
      e.get_title = .error .WrongType) ∧
    (∀ (e : Entry) ft, e.get "editor" = some ft →
      ft.isPersonsShape = false → e.get_editor = .error .WrongType) ∧
    (∀ (e : Entry) ft, e.get "affiliated" = some ft →
      ft.isPersonsWithRolesShape = false →
      e.get_affiliated_persons = .error .WrongType) ∧
    (∀ (e : Entry) ft, e.get "organization" = some ft →
      ft.isTextShape = false → e.get_organization = .error .WrongType) ∧
    (∀ (e : Entry) ft, e.get "issue" = some ft →
      ft.isNumOrStrShape = false → e.get_issue = .error .WrongType) ∧
    (∀ (e : Entry) ft, e.get "edition" = some ft →
      ft.isNumOrStrShape = false → e.get_edition = .error .WrongType) ∧
    (∀ (e : Entry) ft, e.get "version" = some ft →
      ft.isTextShape = false → e.get_version = .error .WrongType) ∧
    (∀ (e : Entry) ft, e.get "volume" = some ft →
      ft.isRangeShape = false → e.get_volume = .error .WrongType) ∧
    (∀ (e : Entry) ft, e.get "volume-total" = some ft →
      ft.isIntegerShape = false → e.get_total_volumes = .error .WrongType) ∧
    (∀ (e : Entry) ft, e.get "page-range" = some ft →
      ft.isRangeShape = false → e.get_page_range = .error .WrongType) ∧
    (∀ (e : Entry) ft, e.get "time-range" = some ft →
      ft.isTimeRangeShape = false → e.get_time_range = .error .WrongType) ∧
    (∀ (e : Entry) ft, e.get "issn" = some ft →
      ft.isTextShape = false → e.get_issn = .error .WrongType) ∧
    (∀ (e : Entry) ft, e.get "isbn" = some ft →
      ft.isTextShape = false → e.get_isbn = .error .WrongType) ∧
    (∀ (e : Entry) ft, e.get "doi" = some ft →
      ft.isTextShape = false → e.get_doi = .error .WrongType) ∧
    (∀ (e : Entry) ft, e.get "serial-number" = some ft →
      ft.isTextShape = false → e.get_serial_number = .error .WrongType) ∧
    (∀ (e : Entry) ft, e.get "url" = some ft →
      ft.isUrlShape = false → e.get_url = .error .WrongType) ∧
    (∀ (e : Entry) ft, e.get "language" = some ft →
      ft.isLanguageShape = false → e.get_language = .error .WrongType) ∧
    (∀ (e : Entry) ft, e.get "note" = some ft →
      ft.isTextShape = false → e.get_note = .error .WrongType) ∧
    (∀ (e : Entry) ft, e.get "location" = some ft →
      ft.isFormattableStringShape = false →
      e.get_location = .error .WrongType) ∧
    (∀ (e : Entry) ft, e.get "publisher" = some ft →
      ft.isFormattableStringShape = false →
      e.get_publisher = .error .WrongType) ∧
    (∀ (e : Entry) ft, e.get "archive" = some ft →
      ft.isFormattableStringShape = false →
      e.get_archive = .error .WrongType) ∧
    (∀ (e : Entry) ft, e.get "archive-location" = some ft →
      ft.isFormattableStringShape = false →
      e.get_archive_location = .error .WrongType) ∧
    (∀ (e : Entry) ft, e.get "author" = some ft →
      ft.isPersonsShape = false → e.get_authors = none) := by
  refine ⟨?_, ?_, ?_, ?_, ?_, ?_, ?_, ?_, ?_, ?_, ?_, ?_, ?_, ?_, ?_, ?_,
    ?_, ?_, ?_, ?_, ?_, ?_, ?_, ?_⟩ <;> intro e ft h hs <;>
    (first
      | (simp only [Entry.get_parents, Entry.get_title, Entry.get_editor,
          Entry.get_affiliated_persons, Entry.get_organization,
          Entry.get_issue, Entry.get_edition, Entry.get_version,
          Entry.get_volume, Entry.get_total_volumes, Entry.get_page_range,
          Entry.get_time_range, Entry.get_issn, Entry.get_isbn,
          Entry.get_doi, Entry.get_serial_number, Entry.get_url,
          Entry.get_language, Entry.get_note, Entry.get_location,
          Entry.get_publisher, Entry.get_archive,
          Entry.get_archive_location, Entry.get_authors, h]
         cases ft <;>
           simp_all [FieldTypes.isEntriesShape,
             FieldTypes.isFormattableStringShape, FieldTypes.isPersonsShape,
             FieldTypes.isPersonsWithRolesShape, FieldTypes.isTextShape,
             FieldTypes.isNumOrStrShape, FieldTypes.isRangeShape,
             FieldTypes.isIntegerShape, FieldTypes.isTimeRangeShape,
             FieldTypes.isDurationShape, FieldTypes.isUrlShape,
             FieldTypes.isLanguageShape, FieldTypes.asEntries,
             FieldTypes.asFormattableString, FieldTypes.asPersons,
             FieldTypes.asPersonsWithRoles, FieldTypes.asText,
             FieldTypes.asNumOrStr, FieldTypes.asRange,
             FieldTypes.asInteger, FieldTypes.asTimeRange,
             FieldTypes.asDuration, FieldTypes.asUrl,
             FieldTypes.asLanguage]))

/-- C2 amended witness: an entry storing text under `title`,
`volume-total` and `author`: the first two accessors return
`WrongType`, and `get_authors` panics (none). -/
theorem accessor_wrong_type_witness :
    (Entry.mk "k" .Misc [("title", .Text "x")]).get_title
      = .error .WrongType ∧
    (Entry.mk "k" .Misc [("volume-total", .Text "x")]).get_total_volumes
      = .error .WrongType ∧
    (Entry.mk "k" .Misc [("author", .Text "x")]).get_authors = none :=
  ⟨accessor_wrong_type.2.1 _ (.Text "x") rfl rfl,
   accessor_wrong_type.2.2.2.2.2.2.2.2.2.1 _ (.Text "x") rfl rfl,
   accessor_wrong_type.2.2.2.2.2.2.2.2.2.2.2.2.2.2.2.2.2.2.2.2.2.2.2 _
     (.Text "x") rfl rfl⟩

/-- C3: `load_yaml_structure` indexes `docs[0]` with no bounds check
(src/src/lib.rs line 272), so an input that scans to zero documents —
the empty string scans to an empty document list — panics
(out-of-bounds, modelled as `none`) instead of returning an error
value; with at least one document a `Result` value is always
returned. -/
theorem load_yaml_structure_empty_docs_panics :
    (∀ ext, load_yaml_structure ext [] = none) ∧
    (∀ ext d rest, ∃ res, load_yaml_structure ext (d :: rest) = some res) := by
  refine ⟨fun ext => rfl, fun ext d rest => ⟨_, rfl⟩⟩

/-! Helper lemmas about the ingestion loop. -/

/-- The entry key is never changed by the field loop. -/
theorem entry_fields_key (ext : Externals) (key : String) :
    ∀ (pairs : List (Yaml × Yaml)) (e0 e : Entry),
      entry_fields ext key pairs e0 = .ok e → e.key = e0.key := by
  intro pairs
  induction pairs with
  | nil =>
    intro e0 e h
    simp only [entry_fields] at h
    cases h
    rfl
  | cons hd rest ih =>
    intro e0 e h
    obtain ⟨fname, value⟩ := hd
    simp only [entry_fields] at h
    rcases hf : fname.into_string with _ | field_name
    · simp [hf] at h
    · simp only [hf] at h
      by_cases ht : field_name = "type"
      · rw [if_pos ht] at h
        rcases hv : value.into_string with _ | val
        · simp [hv] at h
        · simp only [hv] at h
          rcases he : ext.entryTypeFromStr (to_lowercase val) with _ | tp
          · simp only [he] at h
            exact ih e0 e h
          · simp only [he] at h
            have := ih (e0.withType tp) e h
            rwa [withType_key] at this
      · rw [if_neg ht] at h
        rcases hfv : field_value ext key field_name value with err | v
        · simp [hfv] at h
        · simp only [hfv] at h
          have := ih (e0.set field_name v) e h
          rwa [set_key] at this

/-- Every successfully ingested entry carries the key it was ingested
under. -/
theorem entry_from_yaml_key (ext : Externals) (key : String) (y : Yaml)
    (e : Entry) (h : entry_from_yaml ext key y = .ok e) : e.key = key := by
  cases y <;> simp only [entry_from_yaml] at h <;> try cases h
  case Hash pairs =>
    have := entry_fields_key ext key pairs (.mk key .Misc []) e h
    simpa [Entry.key] using this

/-- Every entry of a successful `parent` sequence ingestion carries the
containing key. -/
theorem parent_entries_key (ext : Externals) (key : String) :
    ∀ (ys : List Yaml) (l : List Entry),
      parent_entries ext key ys = .ok l → ∀ e ∈ l, e.key = key := by
  intro ys
  induction ys with
  | nil =>
    intro l h e he
    simp only [parent_entries] at h
    cases h
    cases he
  | cons y rest ih =>
    intro l h e he
    simp only [parent_entries] at h
    rcases h1 : entry_from_yaml ext key y with err | e1
    · simp [h1] at h
    · simp only [h1] at h
      rcases h2 : parent_entries ext key rest with err | l1
      · simp [h2] at h
      · simp only [h2] at h
        have h3 : e1 :: l1 = l := by injection h
        subst h3
        rcases List.mem_cons.mp he with rfl | hm
        · exact entry_from_yaml_key ext key y e h1
        · exact ih l1 h2 e hm

/-- The entry type stays untouched by fields other than `type`. -/
theorem entry_fields_entry_type (ext : Externals) (key : String) :
    ∀ (pairs : List (Yaml × Yaml)) (e0 e : Entry),
      (∀ p ∈ pairs, p.1.into_string ≠ some "type") →
      entry_fields ext key pairs e0 = .ok e →
      e.entry_type = e0.entry_type := by
  intro pairs
  induction pairs with
  | nil =>
    intro e0 e _ h
    simp only [entry_fields] at h
    cases h
    rfl
  | cons hd rest ih =>
    intro e0 e hno h
    obtain ⟨fname, value⟩ := hd
    simp only [entry_fields] at h
    rcases hf : fname.into_string with _ | field_name
    · simp [hf] at h
    · simp only [hf] at h
      have hne : field_name ≠ "type" := by
        intro hc
        exact hno (fname, value) (List.mem_cons_self _ _) (hc ▸ hf)
      rw [if_neg hne] at h
      rcases hfv : field_value ext key field_name value with err | v
      · simp [hfv] at h
      · simp only [hfv] at h
        have := ih (e0.set field_name v) e
          (fun p hp => hno p (List.mem_cons_of_mem _ hp)) h
        rwa [set_entry_type] at this

/-- C8: an entry type string that matches nothing in the enumeration
after lowercasing is a no-op: ingesting the entry is the same as
ingesting it without the `type` field, and since an ingested entry
starts at the default `Misc` and only `type` fields move it, the
resulting type is `Misc`; a minimal such entry succeeds outright. -/
theorem unrecognized_type_defaults_to_misc :
    (∀ (ext : Externals) (key s : String) (rest : List (Yaml × Yaml)),
      ext.entryTypeFromStr (to_lowercase s) = none →
      entry_from_yaml ext key (.Hash ((.String "type", .String s) :: rest))
        = entry_from_yaml ext key (.Hash rest)) ∧
    (∀ (ext : Externals) (key s : String) (rest : List (Yaml × Yaml))
        (e : Entry),
      ext.entryTypeFromStr (to_lowercase s) = none →
      (∀ p ∈ rest, p.1.into_string ≠ some "type") →
      entry_from_yaml ext key (.Hash ((.String "type", .String s) :: rest))
        = .ok e →
      e.entry_type = .Misc) ∧
    (∀ (ext : Externals) (key s : String),
      ext.entryTypeFromStr (to_lowercase s) = none →
      entry_from_yaml ext key (.Hash [(.String "type", .String s)])
        = .ok (.mk key .Misc [])) := by
  have hstep : ∀ (ext : Externals) (key s : String)
      (rest : List (Yaml × Yaml)) (e0 : Entry),
      ext.entryTypeFromStr (to_lowercase s) = none →
      entry_fields ext key ((.String "type", .String s) :: rest) e0
        = entry_fields ext key rest e0 := by
    intro ext key s rest e0 h
    simp [entry_fields, Yaml.into_string, yamlIntoString, h]
  refine ⟨?_, ?_, ?_⟩
  · intro ext key s rest h
    simp only [entry_from_yaml, hstep ext key s rest _ h]
  · intro ext key s rest e h hno hok
    simp only [entry_from_yaml, hstep ext key s rest _ h] at hok
    have := entry_fields_entry_type ext key rest (.mk key .Misc []) e hno hok
    simpa [Entry.entry_type] using this
  · intro ext key s h
    simp only [entry_from_yaml, hstep ext key s [] _ h, entry_fields]

/-- C8 witness: the string "zzz" matches nothing in the default
enumeration; a one-field entry with it ingests to a Misc entry. -/
theorem unrecognized_type_defaults_to_misc_witness :
    default_externals.entryTypeFromStr (to_lowercase "zzz") = none ∧
    entry_from_yaml default_externals "k"
        (.Hash [(.String "type", .String "zzz")])
      = .ok (.mk "k" .Misc []) :=
  ⟨rfl, unrecognized_type_defaults_to_misc.2.2 default_externals "k" "zzz" rfl⟩

/-- C9: a `volume` or `page-range` field given as a bare integer n is
stored as the range with start n and stop n, whose inclusive interval
contains exactly the point n; a string value stores whatever the
external textual-range parser returns, and fails with the `Range` data
error when that parser rejects the string. -/
theorem volume_page_range_ingestion :
    (∀ (ext : Externals) (key f : String) (n : Int),
      f = "volume" ∨ f = "page-range" →
      entry_from_yaml ext key (.Hash [(.String f, .Integer n)])
        = .ok (.mk key .Misc [(f, .Range ⟨n, n⟩)])) ∧
    (∀ n m : Int,
      ((⟨n, n⟩ : Range Int).start ≤ m ∧ m ≤ (⟨n, n⟩ : Range Int).stop) ↔
        m = n) ∧
    (∀ (ext : Externals) (key f s : String) (r : Range Int),
      f = "volume" ∨ f = "page-range" →
      ext.getRange s = some r →
      entry_from_yaml ext key (.Hash [(.String f, .String s)])
        = .ok (.mk key .Misc [(f, .Range r)])) ∧
    (∀ (ext : Externals) (key f s : String),
      f = "volume" ∨ f = "page-range" →
      ext.getRange s = none →
      entry_from_yaml ext key (.Hash [(.String f, .String s)])
        = .error (.DataType key f .Range)) := by
  refine ⟨?_, ?_, ?_, ?_⟩
  · intro ext key f n hf
    rcases hf with rfl | rfl <;>
      simp [entry_from_yaml, entry_fields, field_value, Yaml.into_string,
        yamlIntoString, Yaml.as_i64, Entry.set, Entry.content, Entry.key,
        Entry.entry_type, insertField]
  · intro n m
    dsimp only
    omega
  · intro ext key f s r hf hr
    rcases hf with rfl | rfl <;>
      simp [entry_from_yaml, entry_fields, field_value, Yaml.into_string,
        yamlIntoString, Yaml.as_i64, hr, Entry.set, Entry.content,
        Entry.key, Entry.entry_type, insertField]
  · intro ext key f s hf hr
    rcases hf with rfl | rfl <;>
      simp [entry_from_yaml, entry_fields, field_value, Yaml.into_string,
        yamlIntoString, Yaml.as_i64, hr, newDataTypeSrcError]

/-- C9 witness: volume 3 becomes the point range 3..3; a page-range
string "10-20" parses to 10..20 under the default external parser while
"x" is rejected with the `Range` error. -/
theorem volume_page_range_ingestion_witness :
    entry_from_yaml default_externals "k"
        (.Hash [(.String "volume", .Integer 3)])
      = .ok (.mk "k" .Misc [("volume", .Range ⟨3, 3⟩)]) ∧
    (((⟨3, 3⟩ : Range Int).start ≤ 3 ∧ 3 ≤ (⟨3, 3⟩ : Range Int).stop) ↔
      (3 : Int) = 3) ∧
    entry_from_yaml default_externals "k"
        (.Hash [(.String "page-range", .String "10-20")])
      = .ok (.mk "k" .Misc [("page-range", .Range ⟨10, 20⟩)]) ∧
    entry_from_yaml default_externals "k"
        (.Hash [(.String "page-range", .String "x")])
      = .error (.DataType "k" "page-range" .Range) :=
  ⟨volume_page_range_ingestion.1 default_externals "k" "volume" 3
      (Or.inl rfl),
   volume_page_range_ingestion.2.1 3 3,
   volume_page_range_ingestion.2.2.1 default_externals "k" "page-range"
      "10-20" ⟨10, 20⟩ (Or.inr rfl) (by rfl),
   volume_page_range_ingestion.2.2.2 default_externals "k" "page-range"
      "x" (Or.inr rfl) (by rfl)⟩

/-- C10: a `parent` field holding a single mapping or a sequence of
mappings stores the recursively ingested nested entries, and every
nested entry carries the key string of the containing entry. -/
theorem parent_ingestion :
    (∀ (ext : Externals) (key : String) (v : Yaml) (e : Entry),
      entry_from_yaml ext key v = .ok e →
      entry_from_yaml ext key (.Hash [(.String "parent", v)])
          = .ok (.mk key .Misc [("parent", .Entries [e])]) ∧
        e.key = key) ∧
    (∀ (ext : Externals) (key : String) (ys : List Yaml) (l : List Entry),
      parent_entries ext key ys = .ok l →
      entry_from_yaml ext key (.Hash [(.String "parent", .Array ys)])
          = .ok (.mk key .Misc [("parent", .Entries l)]) ∧
        ∀ e ∈ l, e.key = key) := by
  constructor
  · intro ext key v e h
    refine ⟨?_, entry_from_yaml_key ext key v e h⟩
    cases v
    case Hash m =>
      have h2 : field_value ext key "parent" (.Hash m)
          = .ok (.Entries [e]) := by
        simp [field_value, h]
      simp [entry_from_yaml, entry_fields, Yaml.into_string,
        yamlIntoString, h2, Entry.set, Entry.content, Entry.key,
        Entry.entry_type, insertField]
    all_goals simp [entry_from_yaml] at h
  · intro ext key ys l h
    refine ⟨?_, parent_entries_key ext key ys l h⟩
    have h2 : field_value ext key "parent" (.Array ys)
        = .ok (.Entries l) := by
      simp [field_value, h]
    simp [entry_from_yaml, entry_fields, Yaml.into_string,
      yamlIntoString, h2, Entry.set, Entry.content, Entry.key,
      Entry.entry_type, insertField]

/-- C10 witness: a single periodical mapping and a two-element sequence
under `parent` both ingest recursively, and the nested entries inherit
the containing key "k". -/
theorem parent_ingestion_witness :
    (entry_from_yaml default_externals "k"
        (.Hash [(.String "parent",
          .Hash [(.String "type", .String "periodical")])])
      = .ok (.mk "k" .Misc
          [("parent", .Entries [.mk "k" .Periodical []])]) ∧
      (Entry.mk "k" .Periodical []).key = "k") ∧
    (entry_from_yaml default_externals "k"
        (.Hash [(.String "parent",
          .Array [.Hash [], .Hash [(.String "note", .String "n")]])])
      = .ok (.mk "k" .Misc
          [("parent", .Entries
            [.mk "k" .Misc [], .mk "k" .Misc [("note", .Text "n")]])]) ∧
      ∀ e ∈ [Entry.mk "k" .Misc [],
        Entry.mk "k" .Misc [("note", .Text "n")]], e.key = "k") :=
  ⟨parent_ingestion.1 default_externals "k"
      (.Hash [(.String "type", .String "periodical")])
      (.mk "k" .Periodical [])
      (by simp [entry_from_yaml, entry_fields, field_value,
            Yaml.into_string, yamlIntoString, default_externals,
            Entry.withType, Entry.key, Entry.entry_type, Entry.content]
          rfl),
   parent_ingestion.2 default_externals "k"
      [.Hash [], .Hash [(.String "note", .String "n")]]
      [.mk "k" .Misc [], .mk "k" .Misc [("note", .Text "n")]]
      (by simp [parent_entries, entry_from_yaml, entry_fields,
            field_value, Yaml.into_string, yamlIntoString, Entry.set,
            Entry.content, Entry.key, Entry.entry_type, insertField])⟩

/-! Helper lemmas for the NoValue analysis of
`formattable_str_from_hash_map`. -/

theorem verbatimResult_ne_noValue (o : Option Yaml)
    (e : YamlFormattableStringError)
    (h : (match o with
      | some verbatim =>
        match verbatim.as_bool with
        | some b => Except.ok b
        | none => Except.error YamlFormattableStringError.VerbatimNotBool
      | none => Except.ok false) = Except.error e) :
    ¬e = .NoValue := by
  rcases o with _ | v
  · simp at h
  · rcases hb : v.as_bool with _ | b <;> simp [hb] at h
    simp [← h]

theorem caseResult_ne_noValue (o : Option Yaml)
    (e : YamlFormattableStringError)
    (h : (match o with
      | some sentence_case =>
        match sentence_case.into_string with
        | some s => Except.ok (some s)
        | none => Except.error YamlFormattableStringError.ValueIsNoString
      | none => Except.ok none) = Except.error e) :
    ¬e = .NoValue := by
  rcases o with _ | v
  · simp at h
  · rcases hb : v.into_string with _ | s <;> simp [hb] at h
    simp [← h]

/-- A formattable-string mapping is rejected with `NoValue` exactly
when none of `value`, `sentence-case` and `title-case` carries a string
value. -/
theorem formattable_noValue_iff (m : List (Yaml × Yaml)) :
    formattable_str_from_hash_map m = .error .NoValue ↔
      ((lookupYaml (yaml_hash_map_with_string_keys m) "value").bind
          Yaml.into_string = none ∧
        (lookupYaml (yaml_hash_map_with_string_keys m)
          "sentence-case").bind Yaml.into_string = none ∧
        (lookupYaml (yaml_hash_map_with_string_keys m)
          "title-case").bind Yaml.into_string = none) := by
  rcases hv : (lookupYaml (yaml_hash_map_with_string_keys m) "value").bind
      Yaml.into_string with _ | v <;>
  rcases hs : (lookupYaml (yaml_hash_map_with_string_keys m)
      "sentence-case").bind Yaml.into_string with _ | sc <;>
  rcases ht : (lookupYaml (yaml_hash_map_with_string_keys m)
      "title-case").bind Yaml.into_string with _ | tc <;>
  simp only [formattable_str_from_hash_map, List.filterMap, hv, hs, ht] <;>
  simp_all <;>
  (repeat' split) <;>
  simp_all <;>
  (rename_i x e heq;
   first
     | exact verbatimResult_ne_noValue _ e heq
     | exact caseResult_ne_noValue _ e heq)

/-- C1 counterexample: a `title` mapping with no `value` key but a
string `sentence-case` key does not fail with `NoValue`: ingestion
succeeds, silently promoting the sentence-case string to the value
(src/src/lib.rs lines 301-311 collect `value`, `sentence-case` and
`title-case` together and only fail when all three are missing). -/
theorem title_without_value_succeeds :
    entry_from_yaml default_externals "k"
        (.Hash [(.String "title",
          .Hash [(.String "sentence-case", .String "X")])])
      = .ok (.mk "k" .Misc
          [("title", .FormattableString ⟨"X", none, some "X", false⟩)]) := by
  simp [entry_from_yaml, entry_fields, field_value,
    formattable_str_from_hash_map, yaml_hash_map_with_string_keys,
    lookupYaml, Yaml.into_string, yamlIntoString, Yaml.as_bool,
    List.filterMap, FormattableString.new, Entry.set, Entry.content,
    Entry.key, Entry.entry_type, insertField]

/-- C1 amended: a formattable-string field mapping fails with the
`NoValue` error exactly when none of its `value`, `sentence-case` and
`title-case` keys holds a string value (not merely when `value` is
absent); when all three are missing, ingesting an entry whose `title`
holds that mapping fails with the `NoValue` cause wrapped in the
entry/field `DataType` error. -/
theorem title_noValue_amended :
    (∀ m : List (Yaml × Yaml),
      formattable_str_from_hash_map m = .error .NoValue ↔
        ((lookupYaml (yaml_hash_map_with_string_keys m) "value").bind
            Yaml.into_string = none ∧
          (lookupYaml (yaml_hash_map_with_string_keys m)
            "sentence-case").bind Yaml.into_string = none ∧
          (lookupYaml (yaml_hash_map_with_string_keys m)
            "title-case").bind Yaml.into_string = none)) ∧
    (∀ (ext : Externals) (key : String) (m : List (Yaml × Yaml)),
      (lookupYaml (yaml_hash_map_with_string_keys m) "value").bind
          Yaml.into_string = none →
      (lookupYaml (yaml_hash_map_with_string_keys m)
          "sentence-case").bind Yaml.into_string = none →
      (lookupYaml (yaml_hash_map_with_string_keys m)
          "title-case").bind Yaml.into_string = none →
      entry_from_yaml ext key (.Hash [(.String "title", .Hash m)])
        = .error (.DataType key "title" (.FormattableString .NoValue))) := by
  refine ⟨formattable_noValue_iff, ?_⟩
  intro ext key m h1 h2 h3
  have hm : formattable_str_from_hash_map m = .error .NoValue :=
    (formattable_noValue_iff m).mpr ⟨h1, h2, h3⟩
  simp [entry_from_yaml, entry_fields, field_value, Yaml.into_string,
    yamlIntoString, hm, newDataTypeSrcError]

/-- C1 amended witness: a `title` mapping whose `value` key holds an
integer (so no string value anywhere) fails with the wrapped `NoValue`
error. -/
theorem title_noValue_amended_witness :
    (formattable_str_from_hash_map [(.String "value", .Integer 7)]
        = .error .NoValue ↔
      ((lookupYaml (yaml_hash_map_with_string_keys
          [(.String "value", .Integer 7)]) "value").bind
          Yaml.into_string = none ∧
        (lookupYaml (yaml_hash_map_with_string_keys
          [(.String "value", .Integer 7)]) "sentence-case").bind
          Yaml.into_string = none ∧
        (lookupYaml (yaml_hash_map_with_string_keys
          [(.String "value", .Integer 7)]) "title-case").bind
          Yaml.into_string = none)) ∧
    entry_from_yaml default_externals "k"
        (.Hash [(.String "title", .Hash [(.String "value", .Integer 7)])])
      = .error (.DataType "k" "title" (.FormattableString .NoValue)) :=
  ⟨title_noValue_amended.1 [(.String "value", .Integer 7)],
   title_noValue_amended.2 default_externals "k"
     [(.String "value", .Integer 7)] rfl rfl rfl⟩

end Hayagriva
